import Mathlib

/-!
Shallow embedding of the db-dox-etl core (definition registry, query registry,
dialect/connection resolver, audit state machine, logging context cursor),
translated from the repository sources, together with theorems settling the
spec claims about them.

Conventions: Python exceptions are `Except`/`Option` error values (`KeyError`
on a dict is `none`); the filesystem is an explicit list of existing paths;
wall-clock instants are opaque `Nat` parameters; `uuid4` nondeterminism is an
explicit stream in the process state.
-/

namespace DbDox

/-! ### Python dict model

The source builds several lookup maps with dict comprehensions
(`p.key : p for p in PHASES` and the like).  A Python dict built by iterated
insertion keeps one entry per key; a later insertion with an existing key
overwrites the value in place.  We model a dict as an association list with
exactly that insertion semantics, and subscript lookup as `pyDictGet?`
(a `KeyError` is `none`). -/

def pyDictInsert [DecidableEq κ] (d : List (κ × ν)) (k : κ) (v : ν) : List (κ × ν) :=
  match d with
  | [] => [(k, v)]
  | (k', v') :: rest =>
      if k' = k then (k, v) :: rest else (k', v') :: pyDictInsert rest k v

def pyDictOfList [DecidableEq κ] (items : List (κ × ν)) : List (κ × ν) :=
  items.foldl (fun d kv => pyDictInsert d kv.1 kv.2) []

def pyDictGet? [DecidableEq κ] : List (κ × ν) → κ → Option ν
  | [], _ => none
  | (k', v) :: rest, k => if k' = k then some v else pyDictGet? rest k

/-! ### Python string helpers

`str.split(sep)` for a one-character separator and the `in` containment test,
written on the character list with structural recursion so that the kernel can
evaluate them (the library's `String.splitOn` is defined by well-founded
recursion on byte positions and does not reduce). -/

/-- Python `s.split(sep)` with a one-character separator: always non-empty,
`"".split` gives one empty piece. -/
def pySplitChar (sep : Char) : List Char → List (List Char)
  | [] => [[]]
  | c :: rest =>
      let r := pySplitChar sep rest
      if c = sep then [] :: r
      else
        match r with
        | [] => [[c]]
        | g :: gs => (c :: g) :: gs

/-- Python `needle in haystack` on strings (contiguous substring test). -/
def listIsInfixOf [DecidableEq α] (needle : List α) : List α → Bool
  | [] => decide (needle = [])
  | x :: rest => needle.isPrefixOf (x :: rest) || listIsInfixOf needle rest

/-! ### src/definitions/etl_definitions.py -/

structure EtlPhaseDefinition where
  id : Int
  key : String
  name : String
  description : Option String := none
deriving DecidableEq, Repr

structure EtlStepDefinition where
  id : Int
  phase_id : Int
  key : String
  name : String
  code : String
  description : Option String := none
deriving DecidableEq, Repr

/-- The module-level state built by `etl_definitions.py` at import time:
the two declaration lists and the four lookup dicts derived from them. -/
structure EtlDefinitionsRegistry where
  PHASES : List EtlPhaseDefinition
  STEPS : List EtlStepDefinition
  PHASE_BY_KEY : List (String × EtlPhaseDefinition)
  PHASE_BY_ID : List (Int × EtlPhaseDefinition)
  STEP_BY_KEY : List (String × EtlStepDefinition)
  STEP_BY_ID : List (Int × EtlStepDefinition)
deriving DecidableEq, Repr

/-- Loading `etl_definitions.py` with the given phase/step lists: the dicts are
built by plain comprehensions; no duplicate or dangling-reference check of any
kind is performed, so loading is total. -/
def loadEtlDefinitions (phases : List EtlPhaseDefinition)
    (steps : List EtlStepDefinition) : EtlDefinitionsRegistry :=
  { PHASES := phases
    STEPS := steps
    PHASE_BY_KEY := pyDictOfList (phases.map fun p => (p.key, p))
    PHASE_BY_ID := pyDictOfList (phases.map fun p => (p.id, p))
    STEP_BY_KEY := pyDictOfList (steps.map fun s => (s.key, s))
    STEP_BY_ID := pyDictOfList (steps.map fun s => (s.id, s)) }

/-- `iter_steps_in_phase`: `PHASE_BY_KEY[phase_key]` (a `KeyError` is `none`),
then a generator filtering `STEPS` by `phase_id`. -/
def iterStepsInPhase (reg : EtlDefinitionsRegistry) (phase_key : String) :
    Option (List EtlStepDefinition) :=
  (pyDictGet? reg.PHASE_BY_KEY phase_key).map fun phase =>
    reg.STEPS.filter fun step => decide (step.phase_id = phase.id)

/-- `get_phase_of_step`: `PHASE_BY_ID[step.phase_id]` (a `KeyError` is `none`). -/
def getPhaseOfStep (reg : EtlDefinitionsRegistry) (step : EtlStepDefinition) :
    Option EtlPhaseDefinition :=
  pyDictGet? reg.PHASE_BY_ID step.phase_id

inductive DefinitionLoadError
  | duplicateKey
  | danglingReference
deriving DecidableEq, Repr

/-- The loader as the SPEC describes it, for comparison with
`loadEtlDefinitions` (which is the one translated from the source): "Fails with
a `DuplicateKeyError` if two phases/steps share an id or key.  Fails with a
`DanglingReferenceError` if any step's `phase_id` has no matching phase",
both checked at load time. -/
def loadEtlDefinitionsPerSpec (phases : List EtlPhaseDefinition)
    (steps : List EtlStepDefinition) :
    Except DefinitionLoadError EtlDefinitionsRegistry :=
  if (phases.map (·.id)).Nodup ∧ (phases.map (·.key)).Nodup
      ∧ (steps.map (·.id)).Nodup ∧ (steps.map (·.key)).Nodup then
    if steps.all (fun s => phases.any (fun p => decide (p.id = s.phase_id))) then
      .ok (loadEtlDefinitions phases steps)
    else .error .danglingReference
  else .error .duplicateKey

/-! ### src/app_settings/utils.py -/

inductive SqlType
  | POSTGRESQL
  | MYSQL
  | MYSQL_PYMYSQL
  | SQLSERVER
  | SQLITE
deriving DecidableEq, Repr

def SqlType.value : SqlType → String
  | .POSTGRESQL => "postgresql"
  | .MYSQL => "mysql"
  | .MYSQL_PYMYSQL => "mysql+pymysql"
  | .SQLSERVER => "mssql"
  | .SQLITE => "sqlite"

/-- Iteration order of `for sql_type in SqlType` (declaration order). -/
def SqlType.all : List SqlType :=
  [.POSTGRESQL, .MYSQL, .MYSQL_PYMYSQL, .SQLSERVER, .SQLITE]

/-- Python truthiness of an `int | None` value: `None` and `0` are falsy. -/
def intTruthy : Option Int → Bool
  | none => false
  | some i => decide (i ≠ 0)

/-- Python truthiness of a `str | None` value: `None` and `""` are falsy. -/
def strTruthy : Option String → Bool
  | none => false
  | some s => decide (s ≠ "")

/-- The flat entries of `CONNECTION_TEMPLATES`, each template
`"<scheme>://` followed by the credentials-at-host-colon-port-slash-database
interpolation, represented by its scheme.  The `"mssql"` entry of the source
dict is a nested dict with a `port` and a `no_port` variant; those two variants
are written out in the dedicated SQL-Server branch of `connectionString`, and
the `"sqlite"` entry in the dedicated sqlite branch, mirroring the branch
structure of `connection_string`, which consults the flat lookup only for the
remaining (generic server) types. -/
def connectionTemplateScheme : String → Option String
  | "postgresql" => some "postgresql+psycopg"
  | "mysql" => some "mysql+mysqldb"
  | "mysql+pymysql" => some "mysql+pymysql"
  | _ => none

/-! ### src/app_settings/models.py -/

structure DBCredentials where
  user : String
  password : String
deriving DecidableEq, Repr

/-- `DBCredentials.__str__`. -/
def DBCredentials.toStr (c : DBCredentials) : String :=
  c.user ++ ":" ++ c.password

structure DbSettings where
  db_type : SqlType
  host : String
  port : Option Int := none
  database : String
  credentials : DBCredentials
  driver : Option String := none
deriving DecidableEq, Repr

inductive ConnectionStringError
  | unsupportedDatabaseType (t : SqlType)
deriving DecidableEq, Repr

/-- The driver literal substituted when the descriptor's `driver` is falsy. -/
def mssqlDriverDefault : String := "ODBC+Driver+17+for+SQL+Server"

/-- `self.driver if self.driver else "ODBC+Driver+17+for+SQL+Server"`. -/
def driverOrDefault (d : Option String) : String :=
  if strTruthy d then d.getD "" else mssqlDriverDefault

/-- `DbSettings.connection_string`: sqlite branch, SQL-Server branch with its
two template variants chosen by `if self.port:` (truthiness), then the generic
branch interpolating `port=self.port if self.port else ""` into the single
`host:port` template. -/
def connectionString (s : DbSettings) : Except ConnectionStringError String :=
  if s.db_type = SqlType.SQLITE then
    Except.ok ("sqlite:///" ++ s.database)
  else if s.db_type = SqlType.SQLSERVER then
    if intTruthy s.port then
      Except.ok ("mssql+pyodbc://" ++ s.credentials.toStr ++ "@" ++ s.host ++ ":"
        ++ (match s.port with | some p => toString p | none => "")
        ++ "/" ++ s.database ++ "?driver=" ++ driverOrDefault s.driver
        ++ "&TrustServerCertificate=yes&Encrypt=no")
    else
      Except.ok ("mssql+pyodbc://" ++ s.credentials.toStr ++ "@" ++ s.host
        ++ "/" ++ s.database ++ "?driver=" ++ driverOrDefault s.driver
        ++ "&TrustServerCertificate=yes&Encrypt=no")
  else
    match connectionTemplateScheme s.db_type.value with
    | none => Except.error (ConnectionStringError.unsupportedDatabaseType s.db_type)
    | some scheme =>
        Except.ok (scheme ++ "://" ++ s.credentials.toStr ++ "@" ++ s.host ++ ":"
          ++ (if intTruthy s.port then
                (match s.port with | some p => toString p | none => "")
              else "")
          ++ "/" ++ s.database)

/-! ### SqlGlotDialectRegistry (src/app_settings/utils.py) -/

/-- Model of the external `sqlglot.Dialect.get`: the names under which sqlglot
registers its dialect classes, each class represented by its registry name. -/
def sqlglotDialects : List String :=
  ["bigquery", "clickhouse", "databricks", "drill", "duckdb", "hive",
   "mysql", "oracle", "postgres", "presto", "redshift", "snowflake",
   "spark", "sqlite", "starrocks", "tableau", "teradata", "trino", "tsql"]

def sqlglotDialectGet (name : String) : Option String :=
  if name ∈ sqlglotDialects then some name else none

/-- `_derive_dialect_from_sql_type`: the four ordered rules (explicit mssql
alias, compound name split on the plus sign, postgres substring match,
verbatim). -/
def deriveDialectFromSqlType (sql_type : SqlType) : Option String :=
  let type_name := sql_type.value
  if type_name = "mssql" then
    sqlglotDialectGet "tsql"
  else if type_name.data.contains '+' then
    sqlglotDialectGet (String.mk ((pySplitChar '+' type_name.data).headD []))
  else if listIsInfixOf "postgres".data type_name.data then
    sqlglotDialectGet "postgres"
  else
    sqlglotDialectGet type_name

inductive DialectRegistryError
  | dialectNotFound (t : SqlType)
  | notRegistered (t : SqlType)
deriving DecidableEq, Repr

structure SqlGlotDialectRegistry where
  mapping : List (SqlType × String)
deriving DecidableEq, Repr

/-- `SqlGlotDialectRegistry.__post_init__`: iterates every `SqlType`, deriving
a dialect for each and raising if any derivation comes back `None`.  The local
dict `m` it fills is returned here so theorems can talk about it; the source
never assigns `m` back to the frozen dataclass's `mapping` field. -/
def sqlGlotPostInitLocalDict : Except DialectRegistryError (List (SqlType × String)) :=
  SqlType.all.foldlM
    (fun m t =>
      match deriveDialectFromSqlType t with
      | none => Except.error (DialectRegistryError.dialectNotFound t)
      | some d => Except.ok (pyDictInsert m t d))
    []

/-- Constructing `SqlGlotDialectRegistry()`: `__post_init__` runs (and can
raise), but the constructed object's `mapping` is the untouched
`default_factory=dict` value — the empty dict — because `__post_init__` never
writes its local `m` into the frozen instance. -/
def mkSqlGlotDialectRegistry : Except DialectRegistryError SqlGlotDialectRegistry :=
  sqlGlotPostInitLocalDict.map (fun _ => { mapping := [] })

/-- `SqlGlotDialectRegistry.get`: `self.mapping[sql_type]`, with the `KeyError`
re-raised as a not-registered error. -/
def SqlGlotDialectRegistry.get (r : SqlGlotDialectRegistry) (sql_type : SqlType) :
    Except DialectRegistryError String :=
  match pyDictGet? r.mapping sql_type with
  | some d => Except.ok d
  | none => Except.error (DialectRegistryError.notRegistered sql_type)

/-! ### generate_run_guid (src/app_settings/utils.py) -/

/-- Process state for the memoized `generate_run_guid` (`@lru_cache` on a
zero-argument function): the cache cell, plus the stream of strings that
successive `uuid4()` calls would produce (nondeterminism made explicit). -/
structure GuidProcState where
  cache : Option String
  uuid4Stream : Nat → String
  uuid4Next : Nat

/-- One call to `generate_run_guid()`: return the cached value if present,
otherwise draw a fresh uuid, cache it and return it. -/
def generateRunGuid (st : GuidProcState) : String × GuidProcState :=
  match st.cache with
  | some s => (s, st)
  | none =>
      let g := st.uuid4Stream st.uuid4Next
      (g, { st with cache := some g, uuid4Next := st.uuid4Next + 1 })

/-- `n + 1` successive calls to `generate_run_guid` starting from `st`;
returns the result of the last call and the state after it. -/
def generateRunGuidCalls (st : GuidProcState) : Nat → String × GuidProcState
  | 0 => generateRunGuid st
  | n + 1 => generateRunGuid (generateRunGuidCalls st n).2

/-! ### src/db_sources/query_model.py -/

def QUERIES_PATH : String := "db_sources/queries"

structure Query where
  name : String
  path : String
  description : String
  order : Int
deriving DecidableEq, Repr

/-- `Query.full_path`: `QUERIES_PATH / self.path` (posix join). -/
def Query.full_path (q : Query) : String :=
  QUERIES_PATH ++ "/" ++ q.path

inductive QueryInitError
  | missingQueryFile (name full_path : String)
deriving DecidableEq, Repr

/-- `Query(...)` together with its `__post_init__` existence check; the
filesystem is an explicit parameter, the list of paths `Path.exists` accepts. -/
def mkQuery (fs : List String) (name path description : String) (order : Int) :
    Except QueryInitError Query :=
  let q : Query := { name := name, path := path, description := description, order := order }
  if q.full_path ∈ fs then Except.ok q
  else Except.error (QueryInitError.missingQueryFile q.name q.full_path)

structure Queries where
  _items : List Query
deriving DecidableEq, Repr

/-- `Queries.__init__`: `tuple(sorted(query_list, key=lambda q: q.order))`.
Python's `sorted` is an ascending stable merge sort, embedded as `mergeSort`
with the non-strict key comparison. -/
def Queries.ofList (query_list : List Query) : Queries :=
  ⟨query_list.mergeSort (fun a b => decide (a.order ≤ b.order))⟩

/-- `Queries.__getitem__`. -/
def Queries.getItem? (qs : Queries) (index : Nat) : Option Query :=
  qs._items.get? index

/-- `Queries.__len__`. -/
def Queries.length (qs : Queries) : Nat :=
  qs._items.length

/-- `Queries.__iter__`: forward iteration over the stored tuple. -/
def Queries.iter (qs : Queries) : List Query :=
  qs._items

/-! ### src/db_target/models/meta/meta_enums.py -/

inductive ETLStatusCodeType
  | STARTED
  | SUCCESS
  | FAILED
  | PARTIAL
  | SKIPPED
deriving DecidableEq, Repr

inductive ETLEnvironmentType
  | DEV
  | TEST
  | QA
  | PROD
deriving DecidableEq, Repr

inductive ETLTriggerType
  | SCHEDULED
  | MANUAL
  | API
deriving DecidableEq, Repr

/-- The terminal statuses of the audit state machine (spec section 4.4):
everything except the initial `STARTED`. -/
def ETLStatusCodeType.isTerminal : ETLStatusCodeType → Bool
  | .STARTED => false
  | _ => true

/-! ### Run/step audit tracker

The audit rows below carry the columns of `ETLRunAudit` / `ETLStepAudit`
(src/db_target/models/meta/meta.py) that the status state machine touches,
with the declared defaults (`status_code` defaults to `STARTED`). -/

structure ETLRunAudit where
  etl_run_guid : String
  job_name : String
  environment : ETLEnvironmentType
  trigger_type : ETLTriggerType := .SCHEDULED
  trigger_user : Option String := none
  start_time_utc : Nat
  end_time_utc : Option Nat := none
  status_code : ETLStatusCodeType := .STARTED
  total_rows_read : Option Int := none
  total_rows_written : Option Int := none
  error_count : Option Int := none
  comments : Option String := none
deriving DecidableEq, Repr

structure ETLStepAudit where
  etl_run_guid : String
  etl_phase_id : Int
  step_id : Int
  rows_read : Option Int := none
  rows_written : Option Int := none
  start_time_utc : Nat
  end_time_utc : Option Nat := none
  status_code : ETLStatusCodeType := .STARTED
  error_message : Option String := none
deriving DecidableEq, Repr

inductive InvalidStateTransitionError
  | transitionFromTerminal (current target : ETLStatusCodeType)
  | targetNotTerminal (current target : ETLStatusCodeType)
deriving DecidableEq, Repr

/-- Modelled from the spec: the tracker operation `begin_run` is not present
under src/ (only the ORM declarations and the status enum are).  Spec 4.4:
"allocates a fresh unique guid, sets `status = STARTED`, `start_time = now`". -/
def beginRun (guid job_name : String) (environment : ETLEnvironmentType)
    (trigger_type : ETLTriggerType) (trigger_user : Option String)
    (now : Nat) : ETLRunAudit :=
  { etl_run_guid := guid
    job_name := job_name
    environment := environment
    trigger_type := trigger_type
    trigger_user := trigger_user
    start_time_utc := now
    status_code := ETLStatusCodeType.STARTED }

/-- Modelled from the spec: the tracker operation `complete_run` is not present
under src/.  Spec 4.4: "sets `end_time`, final `status`"; spec 4.4/8: the only
transitions are `STARTED` to one terminal status, no transition leaves a
terminal state, and attempting one raises `InvalidStateTransitionError`. -/
def completeRun (run : ETLRunAudit) (status : ETLStatusCodeType)
    (comments : Option String) (now : Nat) :
    Except InvalidStateTransitionError ETLRunAudit :=
  if run.status_code.isTerminal then
    Except.error (InvalidStateTransitionError.transitionFromTerminal run.status_code status)
  else if status.isTerminal then
    Except.ok { run with
      status_code := status
      end_time_utc := some now
      comments := comments }
  else
    Except.error (InvalidStateTransitionError.targetNotTerminal run.status_code status)

/-- Modelled from the spec: the tracker operation `begin_step` is not present
under src/.  Spec 4.4: "persists immediately with `status = STARTED`". -/
def beginStep (guid : String) (phase_id step_id : Int) (now : Nat) : ETLStepAudit :=
  { etl_run_guid := guid
    etl_phase_id := phase_id
    step_id := step_id
    start_time_utc := now
    status_code := ETLStatusCodeType.STARTED }

/-- Modelled from the spec: the tracker operation `complete_step` is not
present under src/.  Spec 4.4: "sets `end_time = now`, final `status`; fails if
called on an already-terminal StepAudit". -/
def completeStep (step : ETLStepAudit) (status : ETLStatusCodeType)
    (rows_read rows_written : Option Int) (error_message : Option String)
    (now : Nat) : Except InvalidStateTransitionError ETLStepAudit :=
  if step.status_code.isTerminal then
    Except.error (InvalidStateTransitionError.transitionFromTerminal step.status_code status)
  else if status.isTerminal then
    Except.ok { step with
      status_code := status
      end_time_utc := some now
      rows_read := rows_read
      rows_written := rows_written
      error_message := error_message }
  else
    Except.error (InvalidStateTransitionError.targetNotTerminal step.status_code status)

/-! ### src/etl_logging/etl_step.py -/

inductive EtlStep
  | PIPELINE
  | EXTRACT_SYS_SCHEMAS
  | EXTRACT_SYS_TABLES
  | EXTRACT_SYS_COLUMNS
  | EXTRACT_SYS_FKS
  | EXTRACT_SYS_INDEXES
  | EXTRACT_SYS_VIEWS
  | EXTRACT_SYS_PROCS
  | EXTRACT_SYS_FUNCS
  | PARSE_VIEW_DEFS
  | PARSE_PROC_DEFS
  | PARSE_FUNC_DEFS
  | PARSE_RELATIONSHIPS
  | TRANSFORM_DIM_OBJECTS
  | TRANSFORM_DIM_COLUMNS
  | TRANSFORM_FACT_RELATIONSHIPS
  | TRANSFORM_AUDIT
  | LOAD_DIM_OBJECTS
  | LOAD_DIM_COLUMNS
  | LOAD_FACT_RELATIONS
  | LOAD_AUDIT
deriving DecidableEq, Repr

def EtlStep.value : EtlStep → String
  | .PIPELINE => "pipeline.main"
  | .EXTRACT_SYS_SCHEMAS => "extract.sys.schemas"
  | .EXTRACT_SYS_TABLES => "extract.sys.tables"
  | .EXTRACT_SYS_COLUMNS => "extract.sys.columns"
  | .EXTRACT_SYS_FKS => "extract.sys.foreign_keys"
  | .EXTRACT_SYS_INDEXES => "extract.sys.indexes"
  | .EXTRACT_SYS_VIEWS => "extract.sys.views"
  | .EXTRACT_SYS_PROCS => "extract.sys.procedures"
  | .EXTRACT_SYS_FUNCS => "extract.sys.functions"
  | .PARSE_VIEW_DEFS => "parse.view.definitions"
  | .PARSE_PROC_DEFS => "parse.proc.definitions"
  | .PARSE_FUNC_DEFS => "parse.func.definitions"
  | .PARSE_RELATIONSHIPS => "parse.relationships"
  | .TRANSFORM_DIM_OBJECTS => "transform.dim_objects"
  | .TRANSFORM_DIM_COLUMNS => "transform.dim_columns"
  | .TRANSFORM_FACT_RELATIONSHIPS => "transform.fact_relationships"
  | .TRANSFORM_AUDIT => "transform.audit"
  | .LOAD_DIM_OBJECTS => "load.docdb.dim_objects"
  | .LOAD_DIM_COLUMNS => "load.docdb.dim_columns"
  | .LOAD_FACT_RELATIONS => "load.docdb.fact_relationships"
  | .LOAD_AUDIT => "load.docdb.audit"

/-- `EtlStepType = Union[str, EtlStep]`. -/
inductive EtlStepType
  | str (s : String)
  | enum (e : EtlStep)
deriving DecidableEq, Repr

/-- `step_to_str`: an enum member yields its `.value`, a plain string passes
through. -/
def stepToStr : EtlStepType → String
  | .enum e => e.value
  | .str s => s

/-- `get_phase_from_step`: `step_str.split(".")[0]`.  Python `split` always
returns a non-empty list, so index 0 exists; `headD` never takes its default. -/
def getPhaseFromStep (step : EtlStepType) : String :=
  String.mk ((pySplitChar '.' (stepToStr step).data).headD [])

/-! ### src/etl_logging/etl_log_context.py -/

structure ETLLogContext where
  source_db_name : String
  etl_run_guid : String
  etl_phase : String
  etl_step : String
deriving DecidableEq, Repr

/-- `ETLLogContext.__init__`: every field defaults to the placeholder `"-"`;
when a step is supplied, step and phase are both derived from it. -/
def ETLLogContext.init (source_db_name : Option String)
    (etl_run_guid : Option String) (etl_step : Option EtlStepType) : ETLLogContext :=
  { source_db_name := source_db_name.getD "-"
    etl_run_guid := etl_run_guid.getD "-"
    etl_step := match etl_step with
      | some s => stepToStr s
      | none => "-"
    etl_phase := match etl_step with
      | some s => getPhaseFromStep s
      | none => "-" }

/-- `ETLLogContext.update_step`: assigns `etl_step` and `etl_phase`, both
derived from the argument. -/
def ETLLogContext.updateStep (c : ETLLogContext) (etl_step : EtlStepType) : ETLLogContext :=
  { c with
    etl_step := stepToStr etl_step
    etl_phase := getPhaseFromStep etl_step }

/-- `ETLLogContext.update_source_db_name`. -/
def ETLLogContext.updateSourceDbName (c : ETLLogContext) (source_db_name : String) :
    ETLLogContext :=
  { c with source_db_name := source_db_name }

/-! ## Theorems

First the dictionary-model lemmas, then the claim theorems. -/

theorem pyDictGet?_insert [DecidableEq κ] (d : List (κ × ν)) (k k' : κ) (v : ν) :
    pyDictGet? (pyDictInsert d k v) k'
      = if k' = k then some v else pyDictGet? d k' := by
  induction d with
  | nil =>
      by_cases h : k = k'
      · subst h
        simp [pyDictInsert, pyDictGet?]
      · have h' : ¬ k' = k := fun hc => h hc.symm
        simp [pyDictInsert, pyDictGet?, h, h']
  | cons kv rest ih =>
      obtain ⟨k₀, v₀⟩ := kv
      by_cases h₀ : k₀ = k
      · subst h₀
        by_cases h : k₀ = k'
        · subst h
          simp [pyDictInsert, pyDictGet?]
        · have h' : ¬ k' = k₀ := fun hc => h hc.symm
          simp [pyDictInsert, pyDictGet?, h, h']
      · by_cases h : k₀ = k'
        · subst h
          simp [pyDictInsert, h₀, pyDictGet?]
        · have h' : ¬ k' = k₀ := fun hc => h hc.symm
          simp [pyDictInsert, h₀, pyDictGet?, h, ih]

theorem pyDictGet?_append [DecidableEq κ] (l₁ l₂ : List (κ × ν)) (k : κ) :
    pyDictGet? (l₁ ++ l₂) k = (pyDictGet? l₁ k).or (pyDictGet? l₂ k) := by
  induction l₁ with
  | nil => simp [pyDictGet?]
  | cons kv rest ih =>
      obtain ⟨k₀, v₀⟩ := kv
      by_cases h : k₀ = k <;> simp [pyDictGet?, h, ih]

/-- Lookup in a dict built from a list of key/value pairs returns the value of
the **last** pair carrying the key (later insertions overwrite earlier ones),
i.e. first-match lookup on the reversed pair list. -/
theorem pyDictGet?_ofList [DecidableEq κ] (items : List (κ × ν)) (k : κ) :
    pyDictGet? (pyDictOfList items) k = pyDictGet? items.reverse k := by
  suffices h : ∀ d : List (κ × ν),
      pyDictGet? (items.foldl (fun d kv => pyDictInsert d kv.1 kv.2) d) k
        = (pyDictGet? items.reverse k).or (pyDictGet? d k) by
    simpa [pyDictOfList, pyDictGet?] using h []
  induction items with
  | nil => intro d; simp [pyDictGet?]
  | cons kv rest ih =>
      intro d
      obtain ⟨k₀, v₀⟩ := kv
      have step : pyDictGet? (pyDictInsert d k₀ v₀) k
          = (pyDictGet? [(k₀, v₀)] k).or (pyDictGet? d k) := by
        rw [pyDictGet?_insert]
        by_cases h : k₀ = k
        · subst h
          simp [pyDictGet?]
        · have h' : ¬ k = k₀ := fun hc => h hc.symm
          simp [pyDictGet?, h, h']
      calc pyDictGet? (List.foldl (fun d kv => pyDictInsert d kv.1 kv.2) d ((k₀, v₀) :: rest)) k
      _ = pyDictGet? (List.foldl (fun d kv => pyDictInsert d kv.1 kv.2) (pyDictInsert d k₀ v₀) rest) k := by
            simp [List.foldl]
      _ = (pyDictGet? rest.reverse k).or (pyDictGet? (pyDictInsert d k₀ v₀) k) := ih _
      _ = (pyDictGet? rest.reverse k).or ((pyDictGet? [(k₀, v₀)] k).or (pyDictGet? d k)) := by
            rw [step]
      _ = ((pyDictGet? rest.reverse k).or (pyDictGet? [(k₀, v₀)] k)).or (pyDictGet? d k) := by
            rw [Option.or_assoc]
      _ = (pyDictGet? ((k₀, v₀) :: rest).reverse k).or (pyDictGet? d k) := by
            rw [List.reverse_cons, pyDictGet?_append]

/-- Lookup in a pair list of the form `l.map (fun a => (f a, a))` is `find?`. -/
theorem pyDictGet?_map_keyed [DecidableEq κ] (l : List α) (f : α → κ) (k : κ) :
    pyDictGet? (l.map fun a => (f a, a)) k = l.find? (fun a => decide (f a = k)) := by
  induction l with
  | nil => simp [pyDictGet?]
  | cons a rest ih =>
      by_cases h : f a = k <;> simp [pyDictGet?, List.find?_cons, h, ih]

theorem find?_eq_some_of_unique {α : Type _} (p : α → Bool) (a : α) :
    ∀ l : List α, a ∈ l → p a = true → (∀ x ∈ l, p x = true → x = a) →
      l.find? p = some a := by
  intro l
  induction l with
  | nil => intro h; cases h
  | cons b rest ih =>
      intro hmem hpa huniq
      by_cases hb : p b = true
      · have : b = a := huniq b (List.mem_cons_self _ _) hb
        subst this
        simp [List.find?_cons, hb]
      · have hba : b ≠ a := fun h => hb (h ▸ hpa)
        have hmem' : a ∈ rest := by
          rcases List.mem_cons.mp hmem with h | h
          · exact absurd h.symm hba
          · exact h
        have := ih hmem' hpa (fun x hx hpx => huniq x (List.mem_cons_of_mem _ hx) hpx)
        simpa [List.find?_cons, hb] using this

/-! ### Concrete definition-set fixtures -/

def dupPhase1 : EtlPhaseDefinition := { id := 1, key := "a", name := "P1" }

def dupPhase2 : EtlPhaseDefinition := { id := 2, key := "a", name := "P2" }

def danglingStep : EtlStepDefinition :=
  { id := 10, phase_id := 99, key := "s", name := "S", code := "x.y" }

/-- C1 counterexample: the loader performs none of the claimed load-time
checks.  Loading two phases with the same key "a" raises nothing — the code's
loader is total and `PHASE_BY_KEY` silently keeps only the later phase — while
the loader written from the spec's words fails with its duplicate-key error;
loading a step whose `phase_id` (99) matches no phase also raises nothing, and
the dangling reference surfaces only lazily, as the `KeyError` (`none`) of
`get_phase_of_step`, where the spec-worded loader fails at load time. -/
theorem c1_counterexample :
    (loadEtlDefinitions [dupPhase1, dupPhase2] []).PHASE_BY_KEY = [("a", dupPhase2)]
    ∧ loadEtlDefinitionsPerSpec [dupPhase1, dupPhase2] []
        = Except.error DefinitionLoadError.duplicateKey
    ∧ (loadEtlDefinitions [dupPhase1] [danglingStep]).STEPS = [danglingStep]
    ∧ getPhaseOfStep (loadEtlDefinitions [dupPhase1] [danglingStep]) danglingStep = none
    ∧ loadEtlDefinitionsPerSpec [dupPhase1] [danglingStep]
        = Except.error DefinitionLoadError.danglingReference :=
  ⟨by decide, by rfl, by decide, by decide, by rfl⟩

/-- C1 amended: loading the definition registry never fails and performs no
duplicate or dangling-reference check.  When phases share an id or key the
lookup dicts silently keep the value of the last declaration (lookup is
first match on the reversed declaration list), and a step whose `phase_id`
matches no phase is loaded anyway: the dangling reference is detected only
lazily, as a `KeyError` (`none`), when `get_phase_of_step` resolves it. -/
theorem c1_amended (phases : List EtlPhaseDefinition) (steps : List EtlStepDefinition)
    (k : String) (s : EtlStepDefinition)
    (hdangling : ∀ p ∈ phases, p.id ≠ s.phase_id) :
    pyDictGet? (loadEtlDefinitions phases steps).PHASE_BY_KEY k
        = phases.reverse.find? (fun p => decide (p.key = k))
    ∧ getPhaseOfStep (loadEtlDefinitions phases steps) s = none := by
  constructor
  · show pyDictGet? (pyDictOfList (phases.map fun p => (p.key, p))) k = _
    rw [pyDictGet?_ofList, ← List.map_reverse, pyDictGet?_map_keyed]
  · show pyDictGet? (pyDictOfList (phases.map fun p => (p.id, p))) s.phase_id = none
    rw [pyDictGet?_ofList, ← List.map_reverse, pyDictGet?_map_keyed]
    rw [List.find?_eq_none]
    intro p hp
    simp only [decide_eq_true_eq]
    exact hdangling p (List.mem_reverse.mp hp)

theorem c1_amended_witness :
    (∀ p ∈ [dupPhase1, dupPhase2], p.id ≠ danglingStep.phase_id)
    ∧ (pyDictGet? (loadEtlDefinitions [dupPhase1, dupPhase2] []).PHASE_BY_KEY "a"
          = [dupPhase1, dupPhase2].reverse.find? (fun p => decide (p.key = "a"))
        ∧ getPhaseOfStep (loadEtlDefinitions [dupPhase1, dupPhase2] []) danglingStep = none) :=
  ⟨by decide, c1_amended [dupPhase1, dupPhase2] [] "a" danglingStep (by decide)⟩

/-- C4: on any definition set accepted by the load-time validation, and any
phase `ph` of the set, `iter_steps_in_phase ph.key` yields exactly the steps
whose `phase_id` equals `ph.id`, as the filter of the declared step list —
hence in declaration order, with no re-sorting. -/
theorem c4_steps_in_phase (phases : List EtlPhaseDefinition)
    (steps : List EtlStepDefinition) (ph : EtlPhaseDefinition)
    (hvalid : ∃ reg, loadEtlDefinitionsPerSpec phases steps = Except.ok reg)
    (hmem : ph ∈ phases) :
    iterStepsInPhase (loadEtlDefinitions phases steps) ph.key
      = some (steps.filter fun s => decide (s.phase_id = ph.id)) := by
  obtain ⟨reg, hreg⟩ := hvalid
  have hnodup : (phases.map (·.key)).Nodup := by
    unfold loadEtlDefinitionsPerSpec at hreg
    split at hreg
    case isTrue hcond => exact hcond.2.1
    case isFalse => exact absurd hreg (by simp)
  have hlookup : pyDictGet? (loadEtlDefinitions phases steps).PHASE_BY_KEY ph.key
      = some ph := by
    show pyDictGet? (pyDictOfList (phases.map fun p => (p.key, p))) ph.key = some ph
    rw [pyDictGet?_ofList, ← List.map_reverse, pyDictGet?_map_keyed]
    apply find?_eq_some_of_unique _ ph
    · exact List.mem_reverse.mpr hmem
    · simp
    · intro x hx hpx
      have hx' : x ∈ phases := List.mem_reverse.mp hx
      have hkey : x.key = ph.key := by simpa using hpx
      exact List.inj_on_of_nodup_map hnodup hx' hmem hkey
  unfold iterStepsInPhase
  rw [hlookup]
  rfl

theorem c4_steps_in_phase_witness :
    (∃ reg, loadEtlDefinitionsPerSpec
        [{ id := 1, key := "extract", name := "E" }, { id := 2, key := "load", name := "L" }]
        [{ id := 10, phase_id := 1, key := "s1", name := "S1", code := "extract.a" },
         { id := 11, phase_id := 2, key := "s2", name := "S2", code := "load.b" },
         { id := 12, phase_id := 1, key := "s3", name := "S3", code := "extract.c" }]
        = Except.ok reg)
    ∧ iterStepsInPhase
        (loadEtlDefinitions
          [{ id := 1, key := "extract", name := "E" }, { id := 2, key := "load", name := "L" }]
          [{ id := 10, phase_id := 1, key := "s1", name := "S1", code := "extract.a" },
           { id := 11, phase_id := 2, key := "s2", name := "S2", code := "load.b" },
           { id := 12, phase_id := 1, key := "s3", name := "S3", code := "extract.c" }])
        "extract"
      = some [{ id := 10, phase_id := 1, key := "s1", name := "S1", code := "extract.a" },
              { id := 12, phase_id := 1, key := "s3", name := "S3", code := "extract.c" }] := by
  refine ⟨⟨_, rfl⟩, ?_⟩
  have h := c4_steps_in_phase
    [{ id := 1, key := "extract", name := "E" }, { id := 2, key := "load", name := "L" }]
    [{ id := 10, phase_id := 1, key := "s1", name := "S1", code := "extract.a" },
     { id := 11, phase_id := 2, key := "s2", name := "S2", code := "load.b" },
     { id := 12, phase_id := 1, key := "s3", name := "S3", code := "extract.c" }]
    { id := 1, key := "extract", name := "E" }
    ⟨_, rfl⟩ (by decide)
  simpa using h

/-- C2 (code bug): constructing the dialect registry succeeds — every member
of `SqlType` derives a dialect (postgres, mysql, mysql, tsql, sqlite), so the
fail-fast validation of `__post_init__` passes — yet `get` takes its
not-registered failure branch for every member of the enum, because
`__post_init__` builds its dict `m` locally and never assigns it back to the
frozen instance, whose `mapping` field keeps its default empty value.  The
failure branch the claim calls unreachable is in fact always taken. -/
theorem c2_get_always_fails :
    sqlGlotPostInitLocalDict = Except.ok
      [(SqlType.POSTGRESQL, "postgres"), (SqlType.MYSQL, "mysql"),
       (SqlType.MYSQL_PYMYSQL, "mysql"), (SqlType.SQLSERVER, "tsql"),
       (SqlType.SQLITE, "sqlite")]
    ∧ mkSqlGlotDialectRegistry = Except.ok { mapping := [] }
    ∧ SqlGlotDialectRegistry.get { mapping := [] } SqlType.POSTGRESQL
        = Except.error (DialectRegistryError.notRegistered SqlType.POSTGRESQL)
    ∧ (∀ t : SqlType, SqlGlotDialectRegistry.get { mapping := [] } t
        = Except.error (DialectRegistryError.notRegistered t)) :=
  ⟨rfl, rfl, rfl, fun t => by cases t <;> rfl⟩

/-- C3 (spec-modelled audit state machine): a run audit and a step audit are
created in status `STARTED`; completing one with a terminal status (`SUCCESS`,
`FAILED`, `PARTIAL` or `SKIPPED`) succeeds and moves it to exactly that
terminal status; no transition leaves a terminal state — completing the same
audit a second time, with any target status, fails with the
invalid-state-transition error. -/
theorem c3_audit_state_machine (guid job : String) (env : ETLEnvironmentType)
    (trig : ETLTriggerType) (user : Option String) (phase_id step_id : Int)
    (t0 t1 t2 : Nat) (s s' : ETLStatusCodeType) (c c' : Option String)
    (rr rw : Option Int) (msg msg' : Option String)
    (hs : s.isTerminal = true) :
    (beginRun guid job env trig user t0).status_code = ETLStatusCodeType.STARTED
    ∧ (beginStep guid phase_id step_id t0).status_code = ETLStatusCodeType.STARTED
    ∧ (∃ r', completeRun (beginRun guid job env trig user t0) s c t1 = Except.ok r'
        ∧ r'.status_code = s ∧ r'.status_code.isTerminal = true)
    ∧ (∀ r', completeRun (beginRun guid job env trig user t0) s c t1 = Except.ok r' →
        completeRun r' s' c' t2
          = Except.error (InvalidStateTransitionError.transitionFromTerminal s s'))
    ∧ (∃ a', completeStep (beginStep guid phase_id step_id t0) s rr rw msg t1
          = Except.ok a' ∧ a'.status_code = s ∧ a'.status_code.isTerminal = true)
    ∧ (∀ a', completeStep (beginStep guid phase_id step_id t0) s rr rw msg t1
          = Except.ok a' →
        completeStep a' s' rr rw msg' t2
          = Except.error (InvalidStateTransitionError.transitionFromTerminal s s')) := by
  have h0 : ETLStatusCodeType.isTerminal ETLStatusCodeType.STARTED = false := rfl
  have hrun : completeRun (beginRun guid job env trig user t0) s c t1
      = Except.ok { beginRun guid job env trig user t0 with
          status_code := s, end_time_utc := some t1, comments := c } := by
    unfold completeRun beginRun
    simp [h0, hs]
  have hstep : completeStep (beginStep guid phase_id step_id t0) s rr rw msg t1
      = Except.ok { beginStep guid phase_id step_id t0 with
          status_code := s, end_time_utc := some t1,
          rows_read := rr, rows_written := rw, error_message := msg } := by
    unfold completeStep beginStep
    simp [h0, hs]
  refine ⟨rfl, rfl, ⟨_, hrun, rfl, hs⟩, ?_, ⟨_, hstep, rfl, hs⟩, ?_⟩
  · intro r' hr'
    rw [hrun] at hr'
    injection hr' with hr'
    subst hr'
    unfold completeRun
    simp [hs]
  · intro a' ha'
    rw [hstep] at ha'
    injection ha' with ha'
    subst ha'
    unfold completeStep
    simp [hs]

theorem c3_audit_state_machine_witness :
    ETLStatusCodeType.isTerminal ETLStatusCodeType.SUCCESS = true
    ∧ ((beginRun "g" "dox-etl" ETLEnvironmentType.PROD ETLTriggerType.SCHEDULED none 0).status_code
          = ETLStatusCodeType.STARTED
      ∧ (beginStep "g" 1 2 0).status_code = ETLStatusCodeType.STARTED
      ∧ (∃ r', completeRun (beginRun "g" "dox-etl" ETLEnvironmentType.PROD ETLTriggerType.SCHEDULED none 0)
            ETLStatusCodeType.SUCCESS none 1 = Except.ok r'
          ∧ r'.status_code = ETLStatusCodeType.SUCCESS ∧ r'.status_code.isTerminal = true)
      ∧ (∀ r', completeRun (beginRun "g" "dox-etl" ETLEnvironmentType.PROD ETLTriggerType.SCHEDULED none 0)
            ETLStatusCodeType.SUCCESS none 1 = Except.ok r' →
          completeRun r' ETLStatusCodeType.FAILED none 2
            = Except.error (InvalidStateTransitionError.transitionFromTerminal
                ETLStatusCodeType.SUCCESS ETLStatusCodeType.FAILED))
      ∧ (∃ a', completeStep (beginStep "g" 1 2 0) ETLStatusCodeType.SUCCESS (some 120) none none 1
            = Except.ok a'
          ∧ a'.status_code = ETLStatusCodeType.SUCCESS ∧ a'.status_code.isTerminal = true)
      ∧ (∀ a', completeStep (beginStep "g" 1 2 0) ETLStatusCodeType.SUCCESS (some 120) none none 1
            = Except.ok a' →
          completeStep a' ETLStatusCodeType.FAILED (some 120) none none 2
            = Except.error (InvalidStateTransitionError.transitionFromTerminal
                ETLStatusCodeType.SUCCESS ETLStatusCodeType.FAILED))) :=
  ⟨rfl, c3_audit_state_machine "g" "dox-etl" ETLEnvironmentType.PROD ETLTriggerType.SCHEDULED
    none 1 2 0 1 2 ETLStatusCodeType.SUCCESS ETLStatusCodeType.FAILED none none
    (some 120) none none none rfl⟩

/-- C5: however the entries of a collection are permuted on input, the
`Queries` built from them iterates the same entries (a permutation of the
collection) with `order` values monotonically non-decreasing; entries with
equal `order` keep their relative input position (stability, phrased as
pair-sublist preservation); and `length` and indexed access read the very same
single ordered sequence that iteration yields. -/
theorem c5_queries_order (coll l : List Query) (hperm : l.Perm coll) :
    ((Queries.ofList l).iter).Pairwise (fun a b => a.order ≤ b.order)
    ∧ ((Queries.ofList l).iter).Perm coll
    ∧ (Queries.ofList l).length = coll.length
    ∧ (∀ i, (Queries.ofList l).getItem? i = ((Queries.ofList l).iter).get? i)
    ∧ (∀ a b : Query, List.Sublist [a, b] l → a.order ≤ b.order →
        List.Sublist [a, b] ((Queries.ofList l).iter)) := by
  have trans : ∀ a b c : Query,
      decide (a.order ≤ b.order) → decide (b.order ≤ c.order) →
        decide (a.order ≤ c.order) := by
    intro a b c hab hbc
    simp only [decide_eq_true_eq] at *
    exact le_trans hab hbc
  have total : ∀ a b : Query,
      decide (a.order ≤ b.order) || decide (b.order ≤ a.order) := by
    intro a b
    simpa [Bool.or_eq_true, decide_eq_true_eq] using Int.le_total a.order b.order
  have hsorted := List.sorted_mergeSort trans total l
  have hp : (Queries.ofList l).iter.Perm l :=
    List.mergeSort_perm l (fun a b : Query => decide (a.order ≤ b.order))
  refine ⟨?_, hp.trans hperm, ?_, fun i => rfl, ?_⟩
  · exact hsorted.imp (fun h => by simpa using h)
  · simpa [Queries.length, Queries.ofList] using hperm.length_eq
  · intro a b hsub hab
    exact List.pair_sublist_mergeSort trans total (by simpa using hab) hsub

theorem c5_queries_order_witness :
    ([({ name := "b", path := "b", description := "", order := 1 } : Query),
      { name := "a", path := "a", description := "", order := 0 },
      { name := "c", path := "c", description := "", order := 1 }].Perm
      [{ name := "a", path := "a", description := "", order := 0 },
       { name := "b", path := "b", description := "", order := 1 },
       { name := "c", path := "c", description := "", order := 1 }])
    ∧ ((Queries.ofList
          [{ name := "b", path := "b", description := "", order := 1 },
           { name := "a", path := "a", description := "", order := 0 },
           { name := "c", path := "c", description := "", order := 1 }]).iter).Pairwise
        (fun a b => a.order ≤ b.order) := by
  have hperm : ([({ name := "b", path := "b", description := "", order := 1 } : Query),
      { name := "a", path := "a", description := "", order := 0 },
      { name := "c", path := "c", description := "", order := 1 }].Perm
      [{ name := "a", path := "a", description := "", order := 0 },
       { name := "b", path := "b", description := "", order := 1 },
       { name := "c", path := "c", description := "", order := 1 }]) :=
    List.Perm.swap _ _ _
  exact ⟨hperm, (c5_queries_order _ _ hperm).1⟩

/-- C6: the query-file existence check happens at construction: the smart
constructor embedding `Query.__post_init__` only ever returns a query whose
`full_path` (queries root joined with its relative path) exists on the given
filesystem, and on a missing file it returns the missing-query-file error
immediately, from the constructor itself. -/
theorem c6_query_file_checked (fs : List String)
    (name path description : String) (order : Int) :
    (∀ q, mkQuery fs name path description order = Except.ok q → q.full_path ∈ fs)
    ∧ ((QUERIES_PATH ++ "/" ++ path) ∉ fs →
        mkQuery fs name path description order
          = Except.error (QueryInitError.missingQueryFile name (QUERIES_PATH ++ "/" ++ path))) := by
  constructor
  · intro q hq
    simp only [mkQuery] at hq
    split at hq
    case isTrue h =>
      injection hq with hq
      subst hq
      exact h
    case isFalse => cases hq
  · intro hmem
    simp only [mkQuery]
    split
    case isTrue h => exact absurd h hmem
    case isFalse => rfl

theorem c6_query_file_checked_witness :
    (("db_sources/queries/bad.sql" : String) ∉ ["db_sources/queries/good.sql"])
    ∧ mkQuery ["db_sources/queries/good.sql"] "q" "bad.sql" "d" 1
        = Except.error (QueryInitError.missingQueryFile "q" "db_sources/queries/bad.sql") := by
  refine ⟨by decide, ?_⟩
  have h := (c6_query_file_checked ["db_sources/queries/good.sql"] "q" "bad.sql" "d" 1).2
  exact h (by decide)

/-! ### Connection-string fixtures -/

def pgNoPort : DbSettings :=
  { db_type := SqlType.POSTGRESQL
    host := "h"
    database := "d"
    credentials := { user := "u", password := "p" } }

def mssqlPortZero : DbSettings :=
  { db_type := SqlType.SQLSERVER
    host := "h"
    database := "d"
    port := some 0
    credentials := { user := "u", password := "p" } }

/-- C7 counterexample: for a postgresql descriptor with `port=None`, the code
interpolates the port as the empty string into the single
`host:port` template, producing `...@h:/d` — the `:` separator before the
database slash remains (dangling), where the claim says the port segment is
omitted entirely with no dangling separator (`...@h/d`). -/
theorem c7_counterexample :
    pgNoPort.port = none
    ∧ connectionString pgNoPort = Except.ok "postgresql+psycopg://u:p@h:/d"
    ∧ listIsInfixOf "@h:/".data "postgresql+psycopg://u:p@h:/d".data = true
    ∧ ("postgresql+psycopg://u:p@h:/d" : String) ≠ "postgresql+psycopg://u:p@h/d" :=
  ⟨rfl, rfl, by decide, by decide⟩

/-- C7 amended: for the generic server-engine family (postgresql, mysql,
mysql+pymysql) the single `host:port` template is always used; when the port
is falsy (absent or 0) the port is interpolated as the empty string, so the
`:` separator stays in place right before `/database`; when the port is
present and nonzero, credentials, host, port and database are interpolated. -/
theorem c7_amended (s : DbSettings)
    (h : s.db_type = SqlType.POSTGRESQL ∨ s.db_type = SqlType.MYSQL
      ∨ s.db_type = SqlType.MYSQL_PYMYSQL) :
    ∃ scheme, connectionTemplateScheme s.db_type.value = some scheme
      ∧ (intTruthy s.port = false →
          connectionString s
            = Except.ok (scheme ++ "://" ++ s.credentials.toStr ++ "@" ++ s.host ++ ":"
                ++ "" ++ "/" ++ s.database))
      ∧ (∀ p : Int, s.port = some p → p ≠ 0 →
          connectionString s
            = Except.ok (scheme ++ "://" ++ s.credentials.toStr ++ "@" ++ s.host ++ ":"
                ++ toString p ++ "/" ++ s.database)) := by
  rcases h with h | h | h <;>
  · refine ⟨_, by rw [h]; rfl, ?_, ?_⟩
    · intro hport
      simp [connectionString, h, hport, connectionTemplateScheme, SqlType.value]
    · intro p hp hp0
      have ht : intTruthy (some p) = true := by simp [intTruthy, hp0]
      simp [connectionString, h, hp, ht, connectionTemplateScheme, SqlType.value]

theorem c7_amended_witness :
    (pgNoPort.db_type = SqlType.POSTGRESQL ∨ pgNoPort.db_type = SqlType.MYSQL
      ∨ pgNoPort.db_type = SqlType.MYSQL_PYMYSQL)
    ∧ (∃ scheme, connectionTemplateScheme pgNoPort.db_type.value = some scheme
        ∧ (intTruthy pgNoPort.port = false →
            connectionString pgNoPort
              = Except.ok (scheme ++ "://" ++ pgNoPort.credentials.toStr ++ "@"
                  ++ pgNoPort.host ++ ":" ++ "" ++ "/" ++ pgNoPort.database))
        ∧ (∀ p : Int, pgNoPort.port = some p → p ≠ 0 →
            connectionString pgNoPort
              = Except.ok (scheme ++ "://" ++ pgNoPort.credentials.toStr ++ "@"
                  ++ pgNoPort.host ++ ":" ++ toString p ++ "/" ++ pgNoPort.database))) :=
  ⟨Or.inl rfl, c7_amended pgNoPort (Or.inl rfl)⟩

/-- C8 counterexample: a SQL-Server descriptor whose port is present but `0`
(a valid `int | None` value) selects the "no port" template variant, because
the code branches on Python truthiness of the port, not on its presence;
the claim says any present port selects the "with port" variant. -/
theorem c8_counterexample :
    mssqlPortZero.port = some 0
    ∧ connectionString mssqlPortZero
        = Except.ok "mssql+pyodbc://u:p@h/d?driver=ODBC+Driver+17+for+SQL+Server&TrustServerCertificate=yes&Encrypt=no"
    ∧ ("mssql+pyodbc://u:p@h/d?driver=ODBC+Driver+17+for+SQL+Server&TrustServerCertificate=yes&Encrypt=no" : String)
        ≠ "mssql+pyodbc://u:p@h:0/d?driver=ODBC+Driver+17+for+SQL+Server&TrustServerCertificate=yes&Encrypt=no" :=
  ⟨rfl, rfl, by decide⟩

/-- C8 amended: for a SQL-Server descriptor the template variant is chosen by
Python truthiness of the port — absent or `0` selects the "no port" variant,
present and nonzero selects the "with port" variant — and in both variants the
interpolated driver defaults to the literal `ODBC+Driver+17+for+SQL+Server`
when the descriptor's `driver` is unset (and also when it is the empty
string), otherwise the supplied driver is used. -/
theorem c8_amended (s : DbSettings) (hty : s.db_type = SqlType.SQLSERVER) :
    (intTruthy s.port = false →
      connectionString s
        = Except.ok ("mssql+pyodbc://" ++ s.credentials.toStr ++ "@" ++ s.host
            ++ "/" ++ s.database ++ "?driver=" ++ driverOrDefault s.driver
            ++ "&TrustServerCertificate=yes&Encrypt=no"))
    ∧ (∀ p : Int, s.port = some p → p ≠ 0 →
      connectionString s
        = Except.ok ("mssql+pyodbc://" ++ s.credentials.toStr ++ "@" ++ s.host ++ ":"
            ++ toString p ++ "/" ++ s.database ++ "?driver=" ++ driverOrDefault s.driver
            ++ "&TrustServerCertificate=yes&Encrypt=no"))
    ∧ (s.driver = none → driverOrDefault s.driver = mssqlDriverDefault)
    ∧ (∀ d : String, s.driver = some d → d ≠ "" → driverOrDefault s.driver = d) := by
  refine ⟨?_, ?_, ?_, ?_⟩
  · intro hport
    simp [connectionString, hty, hport]
  · intro p hp hp0
    have ht : intTruthy (some p) = true := by simp [intTruthy, hp0]
    simp [connectionString, hty, hp, ht]
  · intro hd
    simp [driverOrDefault, strTruthy, hd]
  · intro d hd hd0
    have hts : strTruthy (some d) = true := by simp [strTruthy, hd0]
    simp [driverOrDefault, hd, hts]

theorem c8_amended_witness :
    (mssqlPortZero.db_type = SqlType.SQLSERVER)
    ∧ (intTruthy mssqlPortZero.port = false)
    ∧ connectionString mssqlPortZero
        = Except.ok ("mssql+pyodbc://" ++ mssqlPortZero.credentials.toStr ++ "@"
            ++ mssqlPortZero.host ++ "/" ++ mssqlPortZero.database ++ "?driver="
            ++ driverOrDefault mssqlPortZero.driver
            ++ "&TrustServerCertificate=yes&Encrypt=no") :=
  ⟨rfl, rfl, (c8_amended mssqlPortZero rfl).1 rfl⟩

/-! ### Logging-context fixtures -/

def transformPhase : EtlPhaseDefinition :=
  { id := 3, key := "transform", name := "Transform" }

def oddCodedStep : EtlStepDefinition :=
  { id := 7, phase_id := 3, key := "odd", name := "Odd", code := "load.stuff" }

def emptyCtx : ETLLogContext := ETLLogContext.init none none none

/-- C9 counterexample: `update_step` derives the phase from the step string's
first dot-separated component (`get_phase_from_step`), not from the Definition
Registry.  For a step definition whose `phase_id` (3) resolves in the registry
to the phase with key "transform" but whose code is "load.stuff", the context
phase after `update_step` is "load", not "transform" as the claim says. -/
theorem c9_counterexample :
    getPhaseOfStep (loadEtlDefinitions [transformPhase] [oddCodedStep]) oddCodedStep
        = some transformPhase
    ∧ transformPhase.key = "transform"
    ∧ (emptyCtx.updateStep (EtlStepType.str oddCodedStep.code)).etl_step = oddCodedStep.code
    ∧ (emptyCtx.updateStep (EtlStepType.str oddCodedStep.code)).etl_phase = "load"
    ∧ ("load" : String) ≠ "transform" :=
  ⟨by decide, rfl, by decide, by decide, by decide⟩

/-- C9 amended: `update_step` does set the context's step and phase fields
together in the same call, from the same argument, leaving the other fields
unchanged — but the phase is derived from the step string's first
dot-separated component (`get_phase_from_step`), not from the Definition
Registry's `phase_of`; for the canonical `EtlStep` members the derived phase
is "transform" precisely for the four `transform.*` steps, and the context's
step equals the step's code string. -/
theorem c9_amended (c : ETLLogContext) (st : EtlStepType) :
    (c.updateStep st).etl_step = stepToStr st
    ∧ (c.updateStep st).etl_phase = getPhaseFromStep st
    ∧ (c.updateStep st).source_db_name = c.source_db_name
    ∧ (c.updateStep st).etl_run_guid = c.etl_run_guid
    ∧ (∀ e : EtlStep, st = EtlStepType.enum e →
        ((c.updateStep st).etl_phase = "transform" ↔
          (e = EtlStep.TRANSFORM_DIM_OBJECTS ∨ e = EtlStep.TRANSFORM_DIM_COLUMNS
            ∨ e = EtlStep.TRANSFORM_FACT_RELATIONSHIPS ∨ e = EtlStep.TRANSFORM_AUDIT))) := by
  refine ⟨rfl, rfl, rfl, rfl, ?_⟩
  intro e he
  subst he
  show getPhaseFromStep (EtlStepType.enum e) = "transform" ↔ _
  cases e <;> simp <;> decide

theorem c9_amended_witness :
    ((emptyCtx.updateStep (EtlStepType.enum EtlStep.TRANSFORM_DIM_OBJECTS)).etl_step
        = stepToStr (EtlStepType.enum EtlStep.TRANSFORM_DIM_OBJECTS)
      ∧ (emptyCtx.updateStep (EtlStepType.enum EtlStep.TRANSFORM_DIM_OBJECTS)).etl_phase
          = getPhaseFromStep (EtlStepType.enum EtlStep.TRANSFORM_DIM_OBJECTS)
      ∧ (emptyCtx.updateStep (EtlStepType.enum EtlStep.TRANSFORM_DIM_OBJECTS)).source_db_name
          = emptyCtx.source_db_name
      ∧ (emptyCtx.updateStep (EtlStepType.enum EtlStep.TRANSFORM_DIM_OBJECTS)).etl_run_guid
          = emptyCtx.etl_run_guid
      ∧ (∀ e : EtlStep, EtlStepType.enum EtlStep.TRANSFORM_DIM_OBJECTS = EtlStepType.enum e →
          ((emptyCtx.updateStep (EtlStepType.enum EtlStep.TRANSFORM_DIM_OBJECTS)).etl_phase
              = "transform" ↔
            (e = EtlStep.TRANSFORM_DIM_OBJECTS ∨ e = EtlStep.TRANSFORM_DIM_COLUMNS
              ∨ e = EtlStep.TRANSFORM_FACT_RELATIONSHIPS ∨ e = EtlStep.TRANSFORM_AUDIT))))
    ∧ (emptyCtx.updateStep (EtlStepType.enum EtlStep.TRANSFORM_DIM_OBJECTS)).etl_phase
        = "transform" :=
  ⟨c9_amended emptyCtx (EtlStepType.enum EtlStep.TRANSFORM_DIM_OBJECTS), by decide⟩

/-- C10: `generate_run_guid` is memoized with `lru_cache` and takes no
arguments, so within one process every call returns the identical string: the
second of two successive calls returns exactly what the first returned (and
leaves the process state untouched), and the result of the (n+1)-th call in
any chain of successive calls equals the result of the first. -/
theorem c10_run_guid_memoized (st : GuidProcState) (n : Nat) :
    (generateRunGuid (generateRunGuid st).2).1 = (generateRunGuid st).1
    ∧ (generateRunGuid (generateRunGuid st).2).2 = (generateRunGuid st).2
    ∧ (generateRunGuidCalls st n).1 = (generateRunGuid st).1 := by
  have idem : ∀ st' : GuidProcState,
      generateRunGuid (generateRunGuid st').2 = generateRunGuid st' := by
    intro st'
    cases h : st'.cache with
    | some s => simp [generateRunGuid, h]
    | none => simp [generateRunGuid, h]
  have key : ∀ m : Nat, generateRunGuidCalls st m = generateRunGuid st := by
    intro m
    induction m with
    | zero => rfl
    | succ m ih =>
        show generateRunGuid (generateRunGuidCalls st m).2 = generateRunGuid st
        rw [ih]
        exact idem st
  exact ⟨congrArg Prod.fst (idem st), congrArg Prod.snd (idem st),
    congrArg Prod.fst (key n)⟩

end DbDox
